import Mathlib

/-!
# Verification of `fetch_rates.py` (any-currency-to-bdt)

A shallow embedding of the rate-fetching pipeline of `fetch_rates.py`.

The Python program is an async batch fetcher.  Its effectful parts (network
responses, the headless browser, the wall clock) are modelled as explicit
inputs:

* every `(provider, currency)` task's interaction with the outside world is
  summarised by a `FetchOutcome` — the value the provider's `fetch_rate`
  coroutine returns for that pair, or the fact that it raised; an `Env`
  assigns an outcome to every pair;
* the shared Chromium launch (`BrowserPool._start`) either succeeds or
  raises; this is the `launchOk : Bool` argument of `fetch_all`, and a raise
  is modelled with `Except` (the source `asyncio.gather` call has
  `return_exceptions=False`, so an exception from the bare `_pool._start()`
  task propagates out of `fetch_all`);
* `datetime.now(timezone.utc).isoformat()` is the `now : String` argument.

Python floats are modelled as exact rationals (`ℚ`); `round(x, n)` is
round-half-to-even on the rational value.
-/

namespace FetchRates

/-- Python `round(q)` to an integer: round half to even (banker's rounding). -/
def halfEven (q : ℚ) : ℤ :=
  if q - ⌊q⌋ < 1/2 then ⌊q⌋
  else if 1/2 < q - ⌊q⌋ then ⌊q⌋ + 1
  else if ⌊q⌋ % 2 = 0 then ⌊q⌋ else ⌊q⌋ + 1

/-- Python `round(x, n)` for `n` decimal digits, on the exact rational value. -/
def pyRound (n : ℕ) (x : ℚ) : ℚ := (halfEven (x * 10 ^ n) : ℚ) / 10 ^ n

/-- `TARGET = "BDT"` (fetch_rates.py line 41). -/
def TARGET : String := "BDT"

/-- Python `str.lower()` (all strings it is applied to here are ASCII).
Defined by structural recursion over the character list so that concrete
instances evaluate inside the kernel. -/
def strLower (s : String) : String := String.mk (s.data.map Char.toLower)

/-- The first `n` characters of a string (Python `s[:n]`). -/
def strTake (s : String) (n : ℕ) : String := String.mk (s.data.take n)

/-- The string without its first `n` characters (Python `s[n:]`). -/
def strDrop (s : String) (n : ℕ) : String := String.mk (s.data.drop n)

/-- One entry of the `CURRENCIES` table: `(code, symbol, flag, display name)`. -/
structure Currency where
  code : String
  symbol : String
  flag : String
  displayName : String
deriving DecidableEq

/-- The fixed tracked-currency table `CURRENCIES` (fetch_rates.py lines 44-57). -/
def CURRENCIES : List Currency :=
  [⟨"USD", "$", "🇺🇸", "US Dollar"⟩,
   ⟨"GBP", "£", "🇬🇧", "British Pound"⟩,
   ⟨"EUR", "€", "🇪🇺", "Euro"⟩,
   ⟨"CAD", "C$", "🇨🇦", "Canadian Dollar"⟩,
   ⟨"AUD", "A$", "🇦🇺", "Australian Dollar"⟩,
   ⟨"SGD", "S$", "🇸🇬", "Singapore Dollar"⟩,
   ⟨"AED", "د.إ", "🇦🇪", "UAE Dirham"⟩,
   ⟨"MYR", "RM", "🇲🇾", "Malaysian Ringgit"⟩,
   ⟨"SAR", "﷼", "🇸🇦", "Saudi Riyal"⟩,
   ⟨"KWD", "د.ك", "🇰🇼", "Kuwaiti Dinar"⟩,
   ⟨"QAR", "﷼", "🇶🇦", "Qatari Riyal"⟩,
   ⟨"JPY", "¥", "🇯🇵", "Japanese Yen"⟩]

/-- The `Rate` dataclass (fetch_rates.py lines 67-73): one record of the
snapshot.  `fee` defaults to `None`. -/
structure Rate where
  provider : String
  url : String
  rate : ℚ
  delivery : String
  fee : Option ℚ := none
deriving DecidableEq

/-- The value a provider's `fetch_rate` coroutine returns, per its declared
signature `float | tuple[float, float | None] | None`:
`None`, a bare rate, or a `(rate, fee)` pair. -/
inductive FetchResult where
  | noData
  | rateOnly (r : ℚ)
  | rateFee (r : ℚ) (f : Option ℚ)
deriving DecidableEq

/-- The observable outcome of one `fetch_rate` call: it returned a
`FetchResult`, or it raised an exception (network error, timeout,
unparseable body — all end in the same `except Exception` handler). -/
inductive FetchOutcome where
  | ok (res : FetchResult)
  | exn
deriving DecidableEq

/-- Static data of one registered provider: the class attributes `name`,
`url`, `delivery`, the (possibly overridden) `get_url` method, and whether
the provider goes through the shared browser pool (`_needs_browser`,
fetch_rates.py lines 871-872). -/
structure ProviderDescr where
  name : String
  url : String
  delivery : String
  getUrl : String → String
  needsBrowser : Bool

/-- `Provider.scrape` (fetch_rates.py lines 199-217): wrap `fetch_rate`'s
result in a `Rate`, rounding the rate to 3 decimals and the fee (when not
`None`) to 2; a `None` result or any exception becomes `none`.  A tuple of
length ≥ 2 is split into `(rate, fee)`; a bare number gets `fee = None`. -/
def scrape (p : ProviderDescr) (src : String) (o : FetchOutcome) : Option Rate :=
  match o with
  | .exn => none
  | .ok .noData => none
  | .ok (.rateOnly r) =>
      some ⟨p.name, p.getUrl src, pyRound 3 r, p.delivery, none⟩
  | .ok (.rateFee r f) =>
      some ⟨p.name, p.getUrl src, pyRound 3 r, p.delivery, f.map (pyRound 2)⟩

/-- `get_url` default implementation: the static class URL. -/
def defaultGetUrl (u : String) : String → String := fun _ => u

/-- `Wise._REGIONS` (fetch_rates.py lines 229-233). -/
def Wise.REGIONS : List (String × String) :=
  [("USD", "us"), ("GBP", "gb"), ("EUR", "de"), ("CAD", "ca"), ("AUD", "au"),
   ("SGD", "sg"), ("AED", "ae"), ("MYR", "my"), ("SAR", "sa"), ("KWD", "kw"),
   ("QAR", "qa"), ("JPY", "jp"), ("NZD", "nz"), ("BHD", "bh"), ("OMR", "om")]

/-- `Wise.get_url` (fetch_rates.py lines 243-245). -/
def Wise.getUrl (src : String) : String :=
  let region := (Wise.REGIONS.lookup src).getD "us"
  "https://wise.com/" ++ region ++ "/currency-converter/" ++ strLower src ++ "-to-bdt-rate"

/-- The part of a Wise `GET /rates/live` response that `Wise.fetch_rate`
looks at: the HTTP status, and `data.get("value")` of the parsed JSON body
(`none` when the key is absent or not a number). -/
structure WiseResponse where
  status : ℕ
  value : Option ℚ

/-- `Wise.fetch_rate` (fetch_rates.py lines 235-241): `None` unless the
status is 200, otherwise whatever `data.get("value")` yields — with **no**
bound or sign check on the value. -/
def Wise.fetch_rate (resp : WiseResponse) : Option ℚ :=
  if resp.status ≠ 200 then none else resp.value

/-- Lift `Wise.fetch_rate`'s return value to the task-outcome type consumed
by `scrape`: Python `None` is `noData`, a bare number is `rateOnly`. -/
def wiseOutcome (resp : WiseResponse) : FetchOutcome :=
  match Wise.fetch_rate resp with
  | none => .ok .noData
  | some v => .ok (.rateOnly v)

/-- `Remitly._REGIONS` (fetch_rates.py lines 253-256). -/
def Remitly.REGIONS : List (String × String × String) :=
  [("USD", ("us", "en")), ("GBP", ("gb", "en")), ("EUR", ("de", "en")),
   ("CAD", ("ca", "en")), ("AUD", ("au", "en"))]

/-- `Remitly.get_url` (fetch_rates.py lines 274-276). -/
def Remitly.getUrl (src : String) : String :=
  let p := (Remitly.REGIONS.lookup src).getD ("us", "en")
  "https://www.remitly.com/" ++ p.1 ++ "/" ++ p.2 ++ "/bangladesh"

/-- `Instarem.get_url` (fetch_rates.py lines 371-372). -/
def Instarem.getUrl (src : String) : String :=
  "https://www.instarem.com/en-us/currency-conversion/" ++ strLower src ++ "-to-bdt/"

/-- `Xe.get_url` (fetch_rates.py lines 409-410). -/
def Xe.getUrl (src : String) : String :=
  "https://www.xe.com/currencyconverter/convert/?Amount=1&From=" ++ src ++ "&To=BDT"

/-- `OrbitRemit._CURRENCIES` (fetch_rates.py lines 420-423). -/
def OrbitRemit.PATHS : List (String × String) :=
  [("AUD", "aud-to-bdt"), ("NZD", "nzd-to-bdt")]

/-- `OrbitRemit.get_url` (fetch_rates.py lines 458-460). -/
def OrbitRemit.getUrl (src : String) : String :=
  "https://www.orbitremit.com/currency-converter/" ++ (OrbitRemit.PATHS.lookup src).getD "aud-to-bdt"

/-- `SendWave._CORRIDORS` (fetch_rates.py lines 469-472). -/
def SendWave.CORRIDORS : List (String × String × String) :=
  [("USD", ("US", "USD")), ("GBP", ("GB", "GBP")),
   ("EUR", ("DE", "EUR")), ("CAD", ("CA", "CAD"))]

/-- `SendWave.get_url` (fetch_rates.py lines 498-503). -/
def SendWave.getUrl (src : String) : String :=
  match SendWave.CORRIDORS.lookup src with
  | some c =>
      "https://www.sendwave.com/en/currency-converter/" ++ strLower c.2 ++ "_" ++
        strLower c.1 ++ "-bdt_bd"
  | none => "https://www.sendwave.com/en/currency-converter/usd_us-bdt_bd"

/-- `Paysend._REGIONS` (fetch_rates.py lines 511-516). -/
def Paysend.REGIONS : List (String × String × String) :=
  [("USD", ("en-us", "the-united-states-of-america")), ("EUR", ("en-us", "germany")),
   ("CAD", ("en-ca", "canada")), ("AUD", ("en-au", "australia"))]

/-- `Paysend.get_url` (fetch_rates.py lines 537-540). -/
def Paysend.getUrl (src : String) : String :=
  let p := (Paysend.REGIONS.lookup src).getD ("en-us", "the-united-states-of-america")
  "https://paysend.com/" ++ p.1 ++ "/send-money/from-" ++ p.2 ++ "-to-bangladesh"

/-- `WesternUnion._REGIONS` (fetch_rates.py lines 550-553). -/
def WesternUnion.REGIONS : List (String × String) :=
  [("USD", "us"), ("GBP", "gb"), ("EUR", "de"), ("CAD", "ca"), ("AUD", "au"),
   ("SGD", "sg"), ("JPY", "jp")]

/-- `WesternUnion.get_url` (fetch_rates.py lines 579-584). -/
def WesternUnion.getUrl (src : String) : String :=
  let region := (WesternUnion.REGIONS.lookup src).getD "us"
  "https://www.westernunion.com/" ++ region ++ "/en/currency-converter/" ++
    strLower src ++ "-to-bdt-rate.html"

/-- `WorldRemit._REGIONS` (fetch_rates.py lines 594-596). -/
def WorldRemit.REGIONS : List (String × String) :=
  [("USD", "en-us"), ("GBP", "en-gb"), ("CAD", "en-ca"), ("AUD", "en-au")]

/-- `WorldRemit.get_url` (fetch_rates.py lines 619-621). -/
def WorldRemit.getUrl (src : String) : String :=
  "https://www.worldremit.com/" ++ (WorldRemit.REGIONS.lookup src).getD "en-us" ++ "/bangladesh"

/-- `Ria.get_url` (fetch_rates.py lines 739-743). -/
def Ria.getUrl (src : String) : String :=
  "https://www.riamoneytransfer.com/en-us/rates-conversion/?From=" ++ src ++ "&To=BDT&Amount=1"

/-- Provider descriptors, one per concrete `Provider` subclass, carrying the
class attributes and `get_url`.  `needsBrowser` matches `_needs_browser`:
true exactly for `WesternUnion`, `WorldRemit`, `Xoom` (Ria/MoneyGram/nsave
use the separate Scrapling thread, not the shared pool). -/
def wise : ProviderDescr :=
  ⟨"Wise", "https://wise.com/us/currency-converter/usd-to-bdt-rate", "Bank",
   Wise.getUrl, false⟩

def remitly : ProviderDescr :=
  ⟨"Remitly", "https://www.remitly.com/us/en/bangladesh",
   "Bank, Mobile Wallet, Cash Pickup", Remitly.getUrl, false⟩

def tapTapSend : ProviderDescr :=
  ⟨"TapTapSend", "https://www.taptapsend.com/send-money-to/bangladesh",
   "Bank, Mobile Wallet",
   defaultGetUrl "https://www.taptapsend.com/send-money-to/bangladesh", false⟩

def nala : ProviderDescr :=
  ⟨"NALA", "https://www.nala.com/country/bangladesh", "Bank, Mobile Wallet",
   defaultGetUrl "https://www.nala.com/country/bangladesh", false⟩

def instarem : ProviderDescr :=
  ⟨"Instarem", "https://www.instarem.com/en-us/currency-conversion/usd-to-bdt/",
   "Bank", Instarem.getUrl, false⟩

def xe : ProviderDescr :=
  ⟨"Xe", "https://www.xe.com/currencyconverter/convert/?Amount=1&From=USD&To=BDT",
   "Bank", Xe.getUrl, false⟩

def orbitRemit : ProviderDescr :=
  ⟨"OrbitRemit", "https://www.orbitremit.com/currency-converter/aud-to-bdt",
   "Bank, Mobile Wallet", OrbitRemit.getUrl, false⟩

def sendWave : ProviderDescr :=
  ⟨"SendWave", "https://www.sendwave.com/en/currency-converter/usd_us-bdt_bd",
   "Bank, Mobile Wallet", SendWave.getUrl, false⟩

def paysend : ProviderDescr :=
  ⟨"Paysend",
   "https://paysend.com/en-us/send-money/from-the-united-states-of-america-to-bangladesh",
   "Bank, Card", Paysend.getUrl, false⟩

def westernUnion : ProviderDescr :=
  ⟨"Western Union",
   "https://www.westernunion.com/us/en/currency-converter/usd-to-bdt-rate.html",
   "Bank, Cash Pickup, Mobile Wallet", WesternUnion.getUrl, true⟩

def worldRemit : ProviderDescr :=
  ⟨"WorldRemit", "https://www.worldremit.com/en-us/bangladesh",
   "Bank, Mobile Wallet, Cash Pickup", WorldRemit.getUrl, true⟩

def xoom : ProviderDescr :=
  ⟨"Xoom", "https://www.xoom.com/bangladesh/send-money",
   "Bank, Cash Pickup, Mobile Wallet",
   defaultGetUrl "https://www.xoom.com/bangladesh/send-money", true⟩

def ria : ProviderDescr :=
  ⟨"Ria",
   "https://www.riamoneytransfer.com/en-us/rates-conversion/?From=USD&To=BDT&Amount=1",
   "Bank, Cash Pickup, Mobile Wallet", Ria.getUrl, false⟩

def moneyGram : ProviderDescr :=
  ⟨"MoneyGram", "https://www.moneygram.com/us/en/corridor/bangladesh",
   "Bank, Cash Pickup, Mobile Wallet",
   defaultGetUrl "https://www.moneygram.com/us/en/corridor/bangladesh", false⟩

def nsave : ProviderDescr :=
  ⟨"nsave", "https://www.nsave.com/calculator/usd-bdt", "Bank, Mobile Wallet",
   defaultGetUrl "https://www.nsave.com/calculator/usd-bdt", false⟩

/-- `_providers`: the auto-registration list, in class-definition order
(`__init_subclass__` appends each concrete subclass as its body is
executed, fetch_rates.py lines 167, 184-187). -/
def providers : List ProviderDescr :=
  [wise, remitly, tapTapSend, nala, instarem, xe, orbitRemit, sendWave,
   paysend, westernUnion, worldRemit, xoom, ria, moneyGram, nsave]

/-- The external world of one run: for each `(provider name, currency code)`
task, the outcome of that provider's `fetch_rate` call. -/
abbrev Env : Type := String → String → FetchOutcome

/-- Non-browser providers, in registration order (the `if not
_needs_browser(provider)` filter of fetch_rates.py lines 882-887). -/
def httpProviders : List ProviderDescr := providers.filter (fun p => !p.needsBrowser)

/-- Browser-pool providers, in registration order (fetch_rates.py lines 888-893). -/
def browserProviders : List ProviderDescr := providers.filter (fun p => p.needsBrowser)

/-- The task matrix for a provider subset: `for code, *_ in CURRENCIES for
provider in ...` — currency-major, providers inner. -/
def taskList (ps : List ProviderDescr) : List (String × ProviderDescr) :=
  CURRENCIES.flatMap (fun c => ps.map (fun p => (c.code, p)))

/-- `_fetch_one` over a task list (fetch_rates.py lines 862-868):
each task yields `(code, scrape result)`.  `asyncio.gather` returns results
in argument order, so the result list order equals the task list order. -/
def runTasks (env : Env) (ts : List (String × ProviderDescr)) : List (String × Option Rate) :=
  ts.map (fun t => (t.1, scrape t.2 t.1 (env t.2.name t.1)))

/-- The settled `results` list of `fetch_all` (after dropping the
`_pool._start()` slot): HTTP tasks first, then browser tasks, in the order
they were passed to `asyncio.gather`. -/
def gatherResults (env : Env) : List (String × Option Rate) :=
  runTasks env (taskList httpProviders) ++ runTasks env (taskList browserProviders)

/-- The bucket of currency `code` *before* sorting: the loop
`for code, rate in results: if rate: data[code].append(...)` appends, in
results order, every non-`None` record of that currency (a `Rate` dataclass
instance is always truthy).  This is the discovery order of the records. -/
def discovered (env : Env) (code : String) : List Rate :=
  (gatherResults env).filterMap (fun t => if t.1 = code then t.2 else none)

/-- The sort relation of `data[code].sort(key=lambda r: r["rate"],
reverse=True)`: descending by rate.  `list.sort` is stable, and with
`reverse=True` equal-rate records keep their original relative order. -/
def rateGe (a b : Rate) : Prop := b.rate ≤ a.rate

instance : DecidableRel rateGe := fun a b => inferInstanceAs (Decidable (b.rate ≤ a.rate))

instance : IsTotal Rate rateGe := ⟨fun a b => (le_total a.rate b.rate).symm⟩

instance : IsTrans Rate rateGe := ⟨fun _ _ _ hab hbc => le_trans hbc hab⟩

/-- The per-currency in-place sort: a stable descending sort by rate.
Python's stable `list.sort` and a stable insertion sort compute the same
list (the stably-sorted permutation is unique). -/
def sortBucket (l : List Rate) : List Rate := List.insertionSort rateGe l

/-- The snapshot object built by `fetch_all` (fetch_rates.py line 911):
`rates` keeps the Python dict's insertion order, i.e. one key per entry of
`CURRENCIES`, in table order. -/
structure Snapshot where
  updated_at : String
  target : String
  rates : List (String × List Rate)
deriving DecidableEq

/-- `fetch_all` (fetch_rates.py lines 875-911).  `now` stands for
`datetime.now(timezone.utc).isoformat()`; `launchOk` records whether the
bare `_pool._start()` coroutine passed to `asyncio.gather` succeeds.  Since
the gather uses `return_exceptions=False` (the default), a launch failure
propagates out of `fetch_all` before any result is assembled — modelled by
`Except.error`. -/
def fetch_all (now : String) (launchOk : Bool) (env : Env) : Except Unit Snapshot :=
  if launchOk then
    .ok ⟨now, TARGET,
         CURRENCIES.map (fun c => (c.code, sortBucket (discovered env c.code)))⟩
  else
    .error ()

/-- A JSON value, as serialised into `rates.json`. -/
inductive JsonVal where
  | str (s : String)
  | num (q : ℚ)
  | null
deriving DecidableEq

/-- `dataclasses.asdict` on a `Rate` (fetch_rates.py line 906): the ordered
field/value pairs of the record as stored in the snapshot's JSON.  Every
field of the dataclass appears, including `fee` when it is `None`. -/
def Rate.asdict (r : Rate) : List (String × JsonVal) :=
  [("provider", .str r.provider), ("url", .str r.url), ("rate", .num r.rate),
   ("delivery", .str r.delivery),
   ("fee", match r.fee with | none => JsonVal.null | some f => JsonVal.num f)]

/-- Pad a digit string to `len` characters with leading zeros. -/
def padZeros (len : ℕ) (s : String) : String :=
  String.mk (List.replicate (len - s.length) '0') ++ s

/-- Python's fixed-point formatting `f"{x:.precf}"` on the exact rational
value: round half to even at `prec` decimal digits, then print with exactly
`prec` digits after the point. -/
def fmtFixed (prec : ℕ) (q : ℚ) : String :=
  let n := halfEven (q * 10 ^ prec)
  (if n < 0 then "-" else "") ++ toString (n.natAbs / 10 ^ prec) ++ "." ++
    padZeros prec (toString (n.natAbs % 10 ^ prec))

/-- `datetime.fromisoformat(s).strftime("%Y-%m-%d %H:%M UTC")`
(fetch_rates.py line 918), modelled for the canonical
`YYYY-MM-DDTHH:MM:SS.ffffff+00:00` strings that
`datetime.now(timezone.utc).isoformat()` produces: keep the date, a space,
the hour and minute, then " UTC". -/
def formatTimestamp (s : String) : String :=
  strTake s 10 ++ " " ++ strTake (strDrop s 11) 5 ++ " UTC"

/-- One table row of `build_readme` (fetch_rates.py lines 956-966): rank and
rate are bold-marked when the record's rate equals the bucket's first
(best) rate; with a fee column, a missing fee renders as "—" and a known
fee as its 2-decimal value followed by the currency code. -/
def rowLine (code : String) (best : ℚ) (hasFee : Bool) (i : ℕ) (r : Rate) : String :=
  let rank := if r.rate = best then "**" ++ toString i ++ "**" else toString i
  let rateStr := if r.rate = best then "**" ++ fmtFixed 3 r.rate ++ "**" else fmtFixed 3 r.rate
  let providerStr := "[" ++ r.provider ++ "](" ++ r.url ++ ")"
  if hasFee then
    let feeStr := match r.fee with
      | some f => fmtFixed 2 f ++ " " ++ code
      | none => "—"
    "| " ++ rank ++ " | " ++ providerStr ++ " | " ++ rateStr ++ " | " ++ feeStr ++ " | " ++
      r.delivery ++ " |"
  else
    "| " ++ rank ++ " | " ++ providerStr ++ " | " ++ rateStr ++ " | " ++ r.delivery ++ " |"

/-- The rows for `enumerate(rates, 1)`. -/
def rowLines (code : String) (best : ℚ) (hasFee : Bool) : ℕ → List Rate → List String
  | _, [] => []
  | i, r :: rs => rowLine code best hasFee i r :: rowLines code best hasFee (i + 1) rs

/-- One per-currency section of the report (fetch_rates.py lines 940-967):
heading, then either "No rates available." or a ranked table whose column
set depends on whether any record of the bucket discloses a fee. -/
def currencySection (ratesMap : List (String × List Rate)) (c : Currency) : List String :=
  let rates := (ratesMap.lookup c.code).getD []
  ["### " ++ c.code ++ " to BDT", ""] ++
    match rates with
    | [] => ["No rates available.", ""]
    | r0 :: _ =>
        let best := r0.rate
        let hasFee := rates.any (fun r => r.fee.isSome)
        (if hasFee then
          ["| # | Provider | 1 " ++ c.code ++ " = BDT | Fee | Delivery |",
           "|--:|----------|---------------:|-----:|----------|"]
         else
          ["| # | Provider | 1 " ++ c.code ++ " = BDT | Delivery |",
           "|--:|----------|---------------:|----------|"]) ++
          rowLines c.code best hasFee 1 rates ++ [""]

/-- The `lines` list of `build_readme` (fetch_rates.py lines 917-1000),
transcribed line for line. -/
def buildReadmeLines (raw : Snapshot) : List String :=
  let updated := formatTimestamp raw.updated_at
  ["# Best remittance rate to Bangladesh?",
   "",
   "I compared Wise, Remitly, Ria, Western Union + 11 more and update it hourly.",
   "",
   "**Last updated:** `" ++ updated ++ "`",
   "",
   "## Why this exists",
   "",
   "Sending money to Bangladesh? Provider sites show one rate at a time." ++
     " This repo **scrapes 14+ providers** (Wise, Remitly, Ria, Xe," ++
     " Western Union, WorldRemit, SendWave, Paysend, NALA, TapTapSend," ++
     " Instarem, Xoom, OrbitRemit, MoneyGram) and **ranks them by rate**" ++
     " for each currency — so you can pick the best deal in seconds." ++
     " Data is refreshed every hour via GitHub Actions. Use the tables" ++
     " below or grab [`rates.json`](rates.json) for your own app.",
   "",
   "## Rates",
   ""] ++
  CURRENCIES.flatMap (currencySection raw.rates) ++
  ["## Data",
   "",
   "Raw rate data is available in [`rates.json`](rates.json)" ++ " for programmatic use:",
   "",
   "```json",
   "\x7b",
   "  \"updated_at\": \"" ++ raw.updated_at ++ "\",",
   "  \"target\": \"BDT\",",
   "  \"rates\": \x7b",
   "    \"USD\": [",
   "      \x7b \"provider\": \"Wise\", \"rate\": 122.200, \"fee\": null, ... \x7d,",
   "      \x7b \"provider\": \"SendWave\", \"rate\": 121.569, \"fee\": 0.99, ... \x7d",
   "    ],",
   "    ...",
   "  \x7d",
   "\x7d",
   "```",
   "",
   "## Disclaimer",
   "",
   "This project is independent and not affiliated with any" ++
     " remittance provider. Rates and fees are scraped from publicly" ++
     " accessible pages and may not reflect actual transfer rates" ++
     " or fees. Always confirm on the provider's website before" ++
     " sending money.",
   "",
   "---",
   "",
   "*Auto-generated on " ++ updated ++ "*",
   ""]

/-- `build_readme` (fetch_rates.py lines 917-1002): `"\n".join(lines)`. -/
def build_readme (raw : Snapshot) : String :=
  String.intercalate "\n" (buildReadmeLines raw)

/-! ## Helper lemmas -/

/-- `halfEven` is the identity on integers. -/
theorem halfEven_intCast (m : ℤ) : halfEven (m : ℚ) = m := by
  unfold halfEven
  norm_num

/-- Evaluate `pyRound` when `q * 10 ^ n` is an integer. -/
theorem pyRound_intCast (n : ℕ) (q : ℚ) (m : ℤ) (h : q * 10 ^ n = (m : ℚ)) :
    pyRound n q = (m : ℚ) / 10 ^ n := by
  unfold pyRound
  rw [h, halfEven_intCast]

/-- Evaluate `fmtFixed` when the scaled value is an integer. -/
theorem fmtFixed_intCast (prec : ℕ) (q : ℚ) (m : ℤ) (h : q * 10 ^ prec = (m : ℚ)) :
    fmtFixed prec q =
      (if m < 0 then "-" else "") ++ toString (m.natAbs / 10 ^ prec) ++ "." ++
        padZeros prec (toString (m.natAbs % 10 ^ prec)) := by
  unfold fmtFixed
  rw [h, halfEven_intCast]

/-- Rounding half to even sends anything above `1/2` to at least `1`. -/
theorem halfEven_pos {q : ℚ} (hq : 1/2 < q) : 1 ≤ halfEven q := by
  have h0 : (0 : ℚ) ≤ q := le_of_lt (lt_trans (by norm_num) hq)
  have hf0 : (0 : ℤ) ≤ ⌊q⌋ := Int.floor_nonneg.mpr h0
  have hle : (⌊q⌋ : ℚ) ≤ q := Int.floor_le q
  unfold halfEven
  split_ifs with h1 h2 h3
  · have hz : (0 : ℚ) < (⌊q⌋ : ℚ) := by linarith
    have : (0 : ℤ) < ⌊q⌋ := by exact_mod_cast hz
    omega
  · omega
  · have heq : q - ⌊q⌋ = 1/2 := le_antisymm (not_lt.mp h2) (not_lt.mp h1)
    have hz : (0 : ℚ) < (⌊q⌋ : ℚ) := by linarith
    have : (0 : ℤ) < ⌊q⌋ := by exact_mod_cast hz
    omega
  · omega

/-- A returned rate strictly above `0.0005` rounds to a positive stored rate. -/
theorem pyRound3_pos {v : ℚ} (hv : 1/2000 < v) : 0 < pyRound 3 v := by
  unfold pyRound
  have h : 1/2 < v * 10 ^ 3 := by nlinarith
  have h1 : 1 ≤ halfEven (v * 10 ^ 3) := halfEven_pos h
  have h2 : (0 : ℚ) < ((halfEven (v * 10 ^ 3) : ℤ) : ℚ) := by exact_mod_cast h1.trans_lt' zero_lt_one
  exact div_pos h2 (by norm_num)

/-- Filtering commutes with `orderedInsert` when the inserted element
satisfies the predicate and every element it is inserted in front of
(i.e. every `b` with `¬ r a b`) does not: the element lands at the head of
the filtered list. -/
theorem filter_orderedInsert_pos {α : Type} (r : α → α → Prop) [DecidableRel r]
    (p : α → Bool) (a : α) (l : List α) (hpa : p a = true)
    (h : ∀ b, ¬ r a b → p b = false) :
    (l.orderedInsert r a).filter p = a :: l.filter p := by
  induction l with
  | nil => simp [hpa]
  | cons b l ih =>
    by_cases hr : r a b
    · simp [List.orderedInsert, hr, List.filter_cons, hpa]
    · have hpb : p b = false := h b hr
      simp [List.orderedInsert, hr, List.filter_cons, hpb, ih]

/-- Filtering ignores an inserted element that fails the predicate. -/
theorem filter_orderedInsert_neg {α : Type} (r : α → α → Prop) [DecidableRel r]
    (p : α → Bool) (a : α) (l : List α) (hpa : p a = false) :
    (l.orderedInsert r a).filter p = l.filter p := by
  induction l with
  | nil => simp [hpa]
  | cons b l ih =>
    by_cases hr : r a b
    · simp [List.orderedInsert, hr, List.filter_cons, hpa]
    · simp [List.orderedInsert, hr, List.filter_cons, ih]

/-- Stability of insertion sort, in filter form: for a predicate that is
closed under "ties or better" (if `p a` holds and `a` is inserted before
`b`, then `p b` fails), sorting does not change the filtered sublist. -/
theorem filter_insertionSort {α : Type} (r : α → α → Prop) [DecidableRel r]
    (p : α → Bool) (hp : ∀ a b, p a = true → ¬ r a b → p b = false)
    (l : List α) :
    (List.insertionSort r l).filter p = l.filter p := by
  induction l with
  | nil => rfl
  | cons a l ih =>
    by_cases hpa : p a = true
    · rw [List.insertionSort, filter_orderedInsert_pos r p a _ hpa (fun b => hp a b hpa), ih]
      simp [List.filter_cons, hpa]
    · have hpa' : p a = false := Bool.eq_false_iff.mpr hpa
      rw [List.insertionSort, filter_orderedInsert_neg r p a _ hpa', ih]
      simp [List.filter_cons, hpa']

/-- Inverting `fetch_all`: every bucket of a returned snapshot is the
stable descending sort of the discovery-order list of its currency. -/
theorem fetch_all_ok_inv {now : String} {env : Env} {s : Snapshot}
    {code : String} {bucket : List Rate}
    (hs : fetch_all now true env = Except.ok s)
    (hb : (code, bucket) ∈ s.rates) :
    bucket = sortBucket (discovered env code) := by
  rw [fetch_all] at hs
  simp only [if_true, Except.ok.injEq] at hs
  subst hs
  simp only [List.mem_map] at hb
  obtain ⟨c, -, hc⟩ := hb
  rw [Prod.mk.injEq] at hc
  obtain ⟨h1, h2⟩ := hc
  subst h1
  exact h2.symm

/-- `fetch_all` depends on the environment only through the per-task
`scrape` results. -/
theorem fetch_all_congr (now : String) (launch : Bool) (e₁ e₂ : Env)
    (h : ∀ (q : ProviderDescr) (c : String),
      scrape q c (e₁ q.name c) = scrape q c (e₂ q.name c)) :
    fetch_all now launch e₁ = fetch_all now launch e₂ := by
  have hrt : ∀ ts : List (String × ProviderDescr), runTasks e₁ ts = runTasks e₂ ts := by
    intro ts
    unfold runTasks
    exact List.map_congr_left (fun t _ => by rw [h t.2 t.1])
  simp only [fetch_all, discovered, gatherResults, hrt]

/-- Every record of a discovery-order bucket was produced by `scrape` of
some registered provider on that currency. -/
theorem mem_runTasks_filterMap {env : Env} {ps : List ProviderDescr} {code : String}
    {r : Rate}
    (h : r ∈ (runTasks env (taskList ps)).filterMap
      (fun t => if t.1 = code then t.2 else none)) :
    ∃ q ∈ ps, scrape q code (env q.name code) = some r := by
  rw [runTasks, taskList, List.filterMap_map, List.mem_filterMap] at h
  obtain ⟨t, ht, hif⟩ := h
  rw [List.mem_flatMap] at ht
  obtain ⟨cur, -, ht2⟩ := ht
  rw [List.mem_map] at ht2
  obtain ⟨p2, hp2, rfl⟩ := ht2
  simp only [Function.comp_apply] at hif
  by_cases hcc : cur.code = code
  · rw [if_pos hcc] at hif
    rw [hcc] at hif
    exact ⟨p2, hp2, hif⟩
  · rw [if_neg hcc] at hif
    cases hif

/-- Membership in `discovered`: the record comes from some provider's
`scrape` on that currency. -/
theorem mem_discovered {env : Env} {code : String} {r : Rate}
    (h : r ∈ discovered env code) :
    ∃ q ∈ providers, scrape q code (env q.name code) = some r := by
  rw [discovered, gatherResults, List.filterMap_append, List.mem_append] at h
  rcases h with h | h
  · obtain ⟨q, hq, hsc⟩ := mem_runTasks_filterMap h
    exact ⟨q, List.mem_of_mem_filter hq, hsc⟩
  · obtain ⟨q, hq, hsc⟩ := mem_runTasks_filterMap h
    exact ⟨q, List.mem_of_mem_filter hq, hsc⟩

/-- Anatomy of a successful `scrape`: the record carries the provider's
name, URL and delivery label, and its rate/fee are the rounded returned
values. -/
theorem scrape_eq_some {p : ProviderDescr} {src : String} {o : FetchOutcome} {r : Rate}
    (h : scrape p src o = some r) :
    r.provider = p.name ∧ r.url = p.getUrl src ∧ r.delivery = p.delivery ∧
    ∃ v, r.rate = pyRound 3 v ∧
      ((o = .ok (.rateOnly v) ∧ r.fee = none) ∨
       ∃ f, o = .ok (.rateFee v f) ∧ r.fee = f.map (pyRound 2)) := by
  cases o with
  | exn => simp [scrape] at h
  | ok res =>
    cases res with
    | noData => simp [scrape] at h
    | rateOnly v =>
        rw [scrape, Option.some.injEq] at h
        subst h
        exact ⟨rfl, rfl, rfl, v, rfl, Or.inl ⟨rfl, rfl⟩⟩
    | rateFee v f =>
        rw [scrape, Option.some.injEq] at h
        subst h
        exact ⟨rfl, rfl, rfl, v, rfl, Or.inr ⟨f, rfl, rfl⟩⟩

/-! ## Concrete runs used as test inputs -/

/-- A run in which every `fetch_rate` call returns `None`. -/
def envNoData : Env := fun _ _ => .ok .noData

/-- The snapshot of the all-`None` run. -/
def snapNoData : Snapshot :=
  ⟨"t", TARGET, CURRENCIES.map (fun c => (c.code, sortBucket (discovered envNoData c.code)))⟩

/-- The `CURRENCIES` entry for USD. -/
def usdCurrency : Currency := ⟨"USD", "$", "🇺🇸", "US Dollar"⟩

/-- A run in which only Wise answers, with `122.2` for USD. -/
def envWiseOnly : Env := fun p c =>
  if p = "Wise" ∧ c = "USD" then .ok (.rateOnly (611/5)) else .ok .noData

/-- The snapshot of the Wise-only run. -/
def snapWiseOnly : Snapshot :=
  ⟨"t", TARGET, CURRENCIES.map (fun c => (c.code, sortBucket (discovered envWiseOnly c.code)))⟩

/-- The record `scrape` builds from Wise's `122.2` USD answer. -/
def wiseUsdScraped : Rate :=
  ⟨"Wise", Wise.getUrl "USD", pyRound 3 (611/5), "Bank", none⟩

/-- A run in which only Wise answers, and the Wise API body is
`{"value": 0}` with HTTP status 200 (so `Wise.fetch_rate` returns `0`). -/
def envWiseZero : Env := fun p c =>
  if p = "Wise" ∧ c = "USD" then wiseOutcome ⟨200, some 0⟩ else .ok .noData

/-- The snapshot of the Wise-zero run. -/
def snapWiseZero : Snapshot :=
  ⟨"t", TARGET, CURRENCIES.map (fun c => (c.code, sortBucket (discovered envWiseZero c.code)))⟩

/-! ## Claims -/

/-- **C1** (confirmed): for every snapshot produced by `fetch_all` and every
currency bucket of its `rates` mapping, the sequence of `rate` values is
non-increasing, and records with equal rates keep their discovery order —
for every rate value `q`, the equal-rate sublist of the bucket is exactly
the equal-rate sublist of the discovery-order list `discovered env code`
(the filter formulation of sort stability). -/
theorem c1_buckets_sorted_desc_stable (now : String) (env : Env) (s : Snapshot)
    (code : String) (bucket : List Rate)
    (hs : fetch_all now true env = Except.ok s)
    (hb : (code, bucket) ∈ s.rates) :
    List.Sorted (· ≥ ·) (bucket.map Rate.rate) ∧
    ∀ q : ℚ, bucket.filter (fun r => decide (r.rate = q)) =
      (discovered env code).filter (fun r => decide (r.rate = q)) := by
  rw [fetch_all_ok_inv hs hb]
  constructor
  · have hsorted := List.sorted_insertionSort rateGe (discovered env code)
    rw [sortBucket, List.Sorted, List.pairwise_map]
    exact hsorted
  · intro q
    rw [sortBucket]
    apply filter_insertionSort
    intro a b hpa hnr
    rw [decide_eq_true_eq] at hpa
    rw [decide_eq_false_iff_not]
    intro hbq
    exact hnr (le_of_eq (hbq.trans hpa.symm))

/-- Witness for C1: the hypotheses are satisfiable — the all-`None` run
returns a snapshot with a USD bucket, and the conclusion holds there (the
stability equation instantiated at rate value `0`). -/
theorem c1_witness :
    List.Sorted (· ≥ ·) ((sortBucket (discovered envNoData "USD")).map Rate.rate) ∧
    (sortBucket (discovered envNoData "USD")).filter (fun r => decide (r.rate = 0)) =
      (discovered envNoData "USD").filter (fun r => decide (r.rate = 0)) := by
  have h := c1_buckets_sorted_desc_stable "t" envNoData snapNoData "USD"
    (sortBucket (discovered envNoData "USD")) rfl
    (List.mem_map.mpr ⟨usdCurrency, by decide, rfl⟩)
  exact ⟨h.1, h.2 0⟩

/-- **C2** (code bug): the claim says a `BrowserPool._start` failure leaves
non-browser tasks unaffected and their records still appear in the
snapshot.  In the code, the bare `_pool._start()` coroutine is passed to
`asyncio.gather` with the default `return_exceptions=False`, so its
exception propagates out of `fetch_all` and the run aborts with **no**
snapshot at all.  Concretely: in a run where the non-browser provider Wise
has a valid USD rate (its task `scrape` succeeds), a launch failure still
makes `fetch_all` raise, so even that record is lost. -/
theorem c2_browser_launch_failure_aborts :
    scrape wise "USD" (envWiseOnly "Wise" "USD") = some wiseUsdScraped ∧
    wise.needsBrowser = false ∧
    fetch_all "t" false envWiseOnly = Except.error () :=
  ⟨rfl, rfl, rfl⟩

/-- The environment after one task's `fetch_rate` behaviour is replaced. -/
def updateEnv (env : Env) (pname code : String) (o : FetchOutcome) : Env :=
  fun p c => if p = pname ∧ c = code then o else env p c

/-- **C3** (confirmed): if any one task's `fetch_rate` raises, `scrape`
returns `None` for that pair, the batch still completes, and the snapshot
is exactly the snapshot of the run in which that pair merely had no data —
every other task's records are unchanged and the failing pair contributes
nothing. -/
theorem c3_exception_isolated_to_task (now : String) (env : Env)
    (pname code : String) (p : ProviderDescr) (src : String) :
    scrape p src FetchOutcome.exn = none ∧
    fetch_all now true (updateEnv env pname code .exn) =
      fetch_all now true (updateEnv env pname code (.ok .noData)) ∧
    ∃ snap, fetch_all now true (updateEnv env pname code .exn) = Except.ok snap := by
  refine ⟨rfl, ?_, ⟨_, rfl⟩⟩
  apply fetch_all_congr
  intro q c
  by_cases h : q.name = pname ∧ c = code
  · simp [updateEnv, h, scrape]
  · simp [updateEnv, h]

/-- **C4** (corrected) — counterexample to the claim as stated:
`Provider.scrape` performs no positivity (or any bounds) check, and
`Wise.fetch_rate` forwards `data.get("value")` unchecked.  So the value `0`
— which `Wise.fetch_rate` returns when the API answers
`200 {"value": 0}` — leads to an emitted record whose stored rate is `0`,
not strictly greater than zero: in the corresponding run the snapshot's
USD bucket is a record with rate exactly `0`. -/
theorem c4_counterexample :
    Wise.fetch_rate ⟨200, some 0⟩ = some 0 ∧
    fetch_all "t" true envWiseZero = Except.ok snapWiseZero ∧
    ("USD", sortBucket (discovered envWiseZero "USD")) ∈ snapWiseZero.rates ∧
    (sortBucket (discovered envWiseZero "USD")).map Rate.rate = [0] ∧
    ¬ (0 : ℚ) < 0 := by
  have h0 : pyRound 3 0 = 0 := by
    rw [pyRound_intCast 3 0 0 (by norm_num)]
    norm_num
  refine ⟨rfl, rfl, List.mem_map.mpr ⟨usdCurrency, by decide, rfl⟩, ?_, lt_irrefl 0⟩
  rw [show sortBucket (discovered envWiseZero "USD") =
    [⟨"Wise", Wise.getUrl "USD", pyRound 3 0, "Bank", none⟩] from rfl]
  simp [h0]

/-- The spec-side hygiene condition the code silently relies on: the value a
`fetch_rate` call returns (when it returns one) exceeds `0.0005`, the
threshold under which 3-decimal rounding can collapse it to zero. -/
def returnedRateLB (o : FetchOutcome) : Prop :=
  match o with
  | .ok (.rateOnly v) => 1/2000 < v
  | .ok (.rateFee v _) => 1/2000 < v
  | _ => True

/-- **C4 amended** (proved): every record in every bucket of a snapshot
produced by `fetch_all` stores `round(v, 3)` of the value `v` the
provider's `fetch_rate` returned, and this stored rate is strictly positive
*provided* every returned value in the run exceeds `0.0005`; `scrape`
itself imposes no positivity check. -/
theorem c4_amended_positive_rate (now : String) (env : Env) (s : Snapshot)
    (code : String) (bucket : List Rate) (r : Rate)
    (henv : ∀ pn c, returnedRateLB (env pn c))
    (hs : fetch_all now true env = Except.ok s)
    (hb : (code, bucket) ∈ s.rates) (hr : r ∈ bucket) :
    0 < r.rate := by
  rw [fetch_all_ok_inv hs hb, sortBucket, List.mem_insertionSort] at hr
  obtain ⟨q, -, hsc⟩ := mem_discovered hr
  obtain ⟨-, -, -, v, hrate, hcase⟩ := scrape_eq_some hsc
  have hlb := henv q.name code
  rw [hrate]
  rcases hcase with ⟨ho, -⟩ | ⟨f, ho, -⟩ <;>
    · rw [ho] at hlb
      exact pyRound3_pos hlb

/-- Witness for C4 amended: in the Wise-only run every returned value is
`122.2 > 0.0005`, the USD bucket holds the scraped Wise record, and its
stored rate is positive. -/
theorem c4_amended_witness : 0 < wiseUsdScraped.rate := by
  have henv : ∀ pn c, returnedRateLB (envWiseOnly pn c) := by
    intro pn c
    by_cases h : pn = "Wise" ∧ c = "USD"
    · simp only [envWiseOnly, if_pos h, returnedRateLB]
      norm_num
    · simp only [envWiseOnly, if_neg h, returnedRateLB]
  have hr : wiseUsdScraped ∈ sortBucket (discovered envWiseOnly "USD") := by
    rw [show sortBucket (discovered envWiseOnly "USD") = [wiseUsdScraped] from rfl]
    exact List.mem_singleton_self _
  exact c4_amended_positive_rate "t" envWiseOnly snapWiseOnly "USD"
    (sortBucket (discovered envWiseOnly "USD")) wiseUsdScraped henv rfl
    (List.mem_map.mpr ⟨usdCurrency, by decide, rfl⟩) hr

/-- **C5** (confirmed): every record in every currency bucket of a snapshot
produced by `fetch_all`, serialised by `dataclasses.asdict`, has exactly
the five keys `provider, url, rate, delivery, fee` in dataclass order; in
particular the `fee` key is always present, bound to `null` exactly when
the provider disclosed no fee. -/
theorem c5_record_has_exactly_five_fields (now : String) (env : Env) (s : Snapshot)
    (code : String) (bucket : List Rate) (r : Rate)
    (_hs : fetch_all now true env = Except.ok s)
    (_hb : (code, bucket) ∈ s.rates) (_hr : r ∈ bucket) :
    (Rate.asdict r).map Prod.fst = ["provider", "url", "rate", "delivery", "fee"] ∧
    (Rate.asdict r).lookup "fee" =
      some (match r.fee with | none => JsonVal.null | some f => JsonVal.num f) :=
  ⟨rfl, rfl⟩

/-- Witness for C5: instantiated at the Wise record of the Wise-only run
(whose `fee` is `None`, so the `fee` key is bound to `null`). -/
theorem c5_witness :
    (Rate.asdict wiseUsdScraped).map Prod.fst =
      ["provider", "url", "rate", "delivery", "fee"] ∧
    (Rate.asdict wiseUsdScraped).lookup "fee" = some JsonVal.null := by
  have hr : wiseUsdScraped ∈ sortBucket (discovered envWiseOnly "USD") := by
    rw [show sortBucket (discovered envWiseOnly "USD") = [wiseUsdScraped] from rfl]
    exact List.mem_singleton_self _
  exact c5_record_has_exactly_five_fields "t" envWiseOnly snapWiseOnly "USD"
    (sortBucket (discovered envWiseOnly "USD")) wiseUsdScraped rfl
    (List.mem_map.mpr ⟨usdCurrency, by decide, rfl⟩) hr

/-- **C6** (confirmed): if a provider's `fetch_rate` returns `None` for a
currency, that (provider, currency) pair contributes zero records to the
snapshot: the currency's bucket holds no record bearing that provider's
name (and in particular no placeholder record with a null rate — a record
with `fee = None` can exist only via an actual returned rate). -/
theorem c6_none_contributes_no_record (now : String) (env : Env)
    (p : ProviderDescr) (code : String) (s : Snapshot) (bucket : List Rate)
    (_hp : p ∈ providers)
    (henv : env p.name code = .ok .noData)
    (hs : fetch_all now true env = Except.ok s)
    (hb : (code, bucket) ∈ s.rates) :
    bucket.all (fun r => r.provider != p.name) = true := by
  rw [fetch_all_ok_inv hs hb, List.all_eq_true]
  intro r hr
  rw [sortBucket, List.mem_insertionSort] at hr
  obtain ⟨q, -, hsc⟩ := mem_discovered hr
  obtain ⟨hprov, -⟩ := scrape_eq_some hsc
  rw [bne_iff_ne]
  intro heq
  rw [hprov] at heq
  rw [heq, henv] at hsc
  exact Option.noConfusion hsc

/-- Witness for C6: in the all-`None` run, Wise returns `None` for USD and
the USD bucket indeed holds no Wise record. -/
theorem c6_witness :
    (sortBucket (discovered envNoData "USD")).all
      (fun r => r.provider != wise.name) = true :=
  c6_none_contributes_no_record "t" envNoData wise "USD" snapNoData
    (sortBucket (discovered envNoData "USD"))
    (List.mem_cons_self _ _) rfl rfl
    (List.mem_map.mpr ⟨usdCurrency, by decide, rfl⟩)

/-- **C7** (confirmed): whenever `Provider.scrape` constructs a record, the
stored rate is the returned rate rounded to 3 decimal places, and the
stored fee is the returned fee rounded to 2 decimal places when one was
returned (`None` otherwise — both for a bare-number return and for a
`(rate, None)` tuple). -/
theorem c7_scrape_rounds_rate_and_fee (p : ProviderDescr) (src : String)
    (o : FetchOutcome) (r : Rate)
    (h : scrape p src o = some r) :
    match o with
    | .ok (.rateOnly v) => r.rate = pyRound 3 v ∧ r.fee = none
    | .ok (.rateFee v f) => r.rate = pyRound 3 v ∧ r.fee = f.map (pyRound 2)
    | _ => False := by
  cases o with
  | exn => exact Option.noConfusion h
  | ok res =>
    cases res with
    | noData => exact Option.noConfusion h
    | rateOnly v =>
        rw [scrape, Option.some.injEq] at h
        subst h
        exact ⟨rfl, rfl⟩
    | rateFee v f =>
        rw [scrape, Option.some.injEq] at h
        subst h
        exact ⟨rfl, rfl⟩

/-- Witness for C7: a SendWave-style `(rate, fee)` return on USD — the
record stores `round(121.569, 3)` and `round(0.99, 2)`. -/
theorem c7_witness :
    (⟨"SendWave", SendWave.getUrl "USD", pyRound 3 (121569/1000), "Bank, Mobile Wallet",
        (some (99/100 : ℚ)).map (pyRound 2)⟩ : Rate).rate = pyRound 3 (121569/1000) ∧
    (⟨"SendWave", SendWave.getUrl "USD", pyRound 3 (121569/1000), "Bank, Mobile Wallet",
        (some (99/100 : ℚ)).map (pyRound 2)⟩ : Rate).fee =
      (some (99/100 : ℚ)).map (pyRound 2) :=
  c7_scrape_rounds_rate_and_fee sendWave "USD"
    (.ok (.rateFee (121569/1000) (some (99/100)))) _ rfl

/-- **C8** (confirmed): `build_readme` is a deterministic function of its
snapshot argument.  The source reads nothing but the argument (no clock, no
randomness, no mutable global): its whole effectful surface is string
formatting of the snapshot's own fields, so it embeds as a pure function
and applying it twice to the same snapshot yields byte-identical output. -/
theorem c8_build_readme_deterministic (raw : Snapshot) :
    build_readme raw = build_readme raw := rfl

/-- **C10** (confirmed): the `rates` mapping of every snapshot returned by
`fetch_all` has exactly the 12 tracked currency codes as its keys, in
`CURRENCIES` order — every tracked currency is present (its bucket possibly
the empty list) and no other key ever appears, whatever the providers
returned. -/
theorem c10_rates_keys_exactly_tracked (now : String) (env : Env) (s : Snapshot)
    (hs : fetch_all now true env = Except.ok s) :
    s.rates.map Prod.fst =
      ["USD", "GBP", "EUR", "CAD", "AUD", "SGD", "AED", "MYR", "SAR", "KWD", "QAR", "JPY"] := by
  rw [fetch_all] at hs
  simp only [if_true, Except.ok.injEq] at hs
  subst hs
  rfl

/-- Witness for C10: the all-`None` run's snapshot has exactly the tracked
keys (with every bucket empty). -/
theorem c10_witness :
    snapNoData.rates.map Prod.fst =
      ["USD", "GBP", "EUR", "CAD", "AUD", "SGD", "AED", "MYR", "SAR", "KWD", "QAR", "JPY"] :=
  c10_rates_keys_exactly_tracked "t" envNoData snapNoData rfl

/-- The image of a member under a list-valued map occurs contiguously in
the flattened map. -/
theorem section_in_flatMap {α β : Type} (f : α → List β) {x : α} {xs : List α}
    (h : x ∈ xs) : ∃ s t, s ++ f x ++ t = xs.flatMap f := by
  induction xs with
  | nil => cases h
  | cons y ys ih =>
    rcases List.mem_cons.mp h with rfl | h2
    · exact ⟨[], ys.flatMap f, by simp⟩
    · obtain ⟨s, t, hst⟩ := ih h2
      refine ⟨f y ++ s, t, ?_⟩
      rw [List.flatMap_cons, ← hst]
      simp [List.append_assoc]

/-- A contiguous block of the middle part of `a ++ m ++ b` is a contiguous
block of the whole. -/
theorem infix_of_middle {β : Type} {block m a b : List β}
    (h : ∃ s t, s ++ block ++ t = m) : ∃ s t, s ++ block ++ t = a ++ m ++ b := by
  obtain ⟨s, t, hst⟩ := h
  refine ⟨a ++ s, t ++ b, ?_⟩
  rw [← hst]
  simp [List.append_assoc]

/-- The USD record of the C9 scenario: Wise at `122.200`, fee unknown. -/
def wiseUsdRecord : Rate :=
  ⟨"Wise", "https://wise.com/us/currency-converter/usd-to-bdt-rate", 611/5, "Bank", none⟩

/-- The USD record of the C9 scenario: SendWave at `121.569`, fee `0.99`. -/
def sendWaveUsdRecord : Rate :=
  ⟨"SendWave", "https://www.sendwave.com/en/currency-converter/usd_us-bdt_bd",
   121569/1000, "Bank, Mobile Wallet", some (99/100)⟩

/-- The C9 scenario snapshot: USD holds Wise then SendWave, every other
tracked currency is empty. -/
def snapC9 : Snapshot :=
  ⟨"2025-01-01T00:00:00+00:00", "BDT",
   CURRENCIES.map (fun c => (c.code,
     if c.code = "USD" then [wiseUsdRecord, sendWaveUsdRecord] else []))⟩

/-- The USD section the report must contain for the C9 scenario. -/
def usdTableC9 : List String :=
  ["### USD to BDT", "",
   "| # | Provider | 1 USD = BDT | Fee | Delivery |",
   "|--:|----------|---------------:|-----:|----------|",
   "| **1** | [Wise](https://wise.com/us/currency-converter/usd-to-bdt-rate) | **122.200** | — | Bank |",
   "| 2 | [SendWave](https://www.sendwave.com/en/currency-converter/usd_us-bdt_bd) | 121.569 | 0.99 USD | Bank, Mobile Wallet |",
   ""]

/-- **C9** (confirmed): on a snapshot whose USD bucket is Wise `122.200`
(fee null) followed by SendWave `121.569` (fee `0.99`), the report's USD
section renders Wise as the top-ranked row with rank and rate bold-marked
(the marker comes from exact equality with the first record's rate), fee
cell "—" for Wise and "0.99 USD" for SendWave — and that section appears
contiguously in the `build_readme` line list. -/
theorem c9_usd_table_rendering :
    currencySection snapC9.rates usdCurrency = usdTableC9 ∧
    usdTableC9 <:+: buildReadmeLines snapC9 := by
  have hsec : currencySection snapC9.rates usdCurrency = usdTableC9 := by
    have hfmt1 : fmtFixed 3 (611/5) = "122.200" := by
      rw [fmtFixed_intCast 3 (611/5) 122200 (by norm_num)]
      rfl
    have hfmt2 : fmtFixed 3 (121569/1000) = "121.569" := by
      rw [fmtFixed_intCast 3 (121569/1000) 121569 (by norm_num)]
      rfl
    have hfmt3 : fmtFixed 2 (99/100) = "0.99" := by
      rw [fmtFixed_intCast 2 (99/100) 99 (by norm_num)]
      rfl
    have hneq : sendWaveUsdRecord.rate = wiseUsdRecord.rate ↔ False := by
      simp only [sendWaveUsdRecord, wiseUsdRecord, iff_false]
      norm_num
    have hrates : (snapC9.rates.lookup usdCurrency.code).getD [] =
        [wiseUsdRecord, sendWaveUsdRecord] := rfl
    simp only [currencySection, hrates]
    simp only [rowLines, rowLine, hneq, if_false, eq_self_iff_true, if_true]
    simp only [wiseUsdRecord, sendWaveUsdRecord, hfmt1, hfmt2, hfmt3]
    rfl
  refine ⟨hsec, ?_⟩
  have hmid : ∃ s t, s ++ usdTableC9 ++ t =
      CURRENCIES.flatMap (currencySection snapC9.rates) := by
    obtain ⟨s, t, hst⟩ := section_in_flatMap (currencySection snapC9.rates)
      (show usdCurrency ∈ CURRENCIES by decide)
    exact ⟨s, t, by rw [← hsec]; exact hst⟩
  exact infix_of_middle hmid

end FetchRates
